import Mathlib

/-!
Shallow embedding of the Board widget of SPWidgets (src/src/boardWidget/board.js).

The embedding covers the parts of the widget that the verified claims are
about:

* the reconciliation pass `showItemsOnBoard` (classification of fresh records
  into added / moved / removed items, the DOM sweep that detaches stale items,
  and the event emissions gated on `opt.initDone`);
* the column-visibility operation `setUserDefinedVisibleCol` (the public
  `setVisible` method) together with the initialization-time visibility
  assignment performed in `showBoard`;
* the column construction `getBoardStates` (choice and lookup branches);
* the `sortreceive` drag handler (pre-commit hook, remote update, promise
  resolution/rejection and the re-emission of the `spwidget:boardchange`
  event).

DOM state is modelled explicitly: a rendered board item is its record id, the
`data-boardstate` value of the column it is parented under, and whether it
currently carries the `spwidget-temp` class.  Records are modelled as an id
plus the value of the board field (the source applies `|| ""` to a missing
value before the record is processed, so the field value is always a string).
-/

namespace SPWidgets

/-- A list record as used by the board: a stable `ID` (the source compares ids
as strings) and the value of the board field (`thisListRow[opt.field] || ""`). -/
structure Rec where
  ID : String
  state : String
deriving DecidableEq, Repr

/-- A board state (column) descriptor as built by `getBoardStates`:
`type` is `"choice"` or `"lookup"`, `title` the external label, `name` the
internal name (also written to the column's `data-boardstate` attribute), and
`isVisible` the mutable visibility flag assigned during `showBoard`. -/
structure StateDef where
  type : String
  title : String
  name : String
  isVisible : Bool := true
deriving DecidableEq, Repr

/-- A rendered board item in the DOM: the record id from its `data-id`
attribute, the `data-boardstate` of the column it is currently parented
under, and whether it carries the `spwidget-temp` marker class. -/
structure BoardItem where
  id : String
  col : String
  temp : Bool := false
deriving DecidableEq, Repr

/-- `Board.maxColumns`: the maximum number of columns that can be built. -/
def Board.maxColumns : Nat := 20

/-- An entry of an event's `itemsModified` array.  `getBoardItemDataObject`
returns `null` when the id is no longer present in `opt.listItems`, and that
`null` is pushed as-is, so an entry is either a record or a missing (`null`)
record. -/
inductive MElem where
  | record (r : Rec)
  | missing
deriving DecidableEq, Repr

/-- A JavaScript array can hold records and arrays of records side by side:
the `spwidget:boarditemadd` / `spwidget:boarditemremove` payloads push the
whole affected array as a single element (`itemsModified.push(newItems)`),
while `spwidget:boardchange` pushes the individual records
(`itemsModified.push.apply(...)`). -/
inductive PElem where
  | one (e : MElem)
  | many (l : List MElem)
deriving DecidableEq, Repr

/-- The events triggered by `showItemsOnBoard`, each carrying the
`itemsModified` payload of the event object it was fired with. -/
inductive Ev where
  | itemadd (p : List PElem)
  | itemremove (p : List PElem)
  | boardchange (p : List PElem)
deriving DecidableEq, Repr

/-- `opt.getBoardItemDataObject(itemId)`: looks the id up in `opt.listItems`
(string comparison); a falsy id (the empty string) yields `null`. -/
def getBoardItemDataObject (listItems : List Rec) (itemId : String) : Option Rec :=
  if itemId = "" then none
  else listItems.find? (fun r => r.ID = itemId)

/-- Intermediate state of the row loop of `showItemsOnBoard`: the items
already in the DOM (`board`), the html strings accumulated in
`itemsForBoard` waiting to be appended (`pending`), and the `newItems` /
`chgItems` arrays. -/
structure PassSt where
  board : List BoardItem
  pending : List BoardItem
  newItems : List Rec
  chgItems : List Rec
deriving DecidableEq, Repr

/-- The DOM effect of finding a row's item on the board during a refresh:
jQuery's `addClass("spwidget-temp")` marks every item whose `data-id`
matches, and when a move is needed `appendTo` re-parents those items to the
column that `opt.statesMap[thisRowState]` points to (whose `data-boardstate`
is `colName`). -/
def markItems (rid colName : String) (moveNeeded : Bool) (board : List BoardItem) :
    List BoardItem :=
  board.map fun it =>
    if it.id = rid then
      { it with temp := true, col := if moveNeeded then colName else it.col }
    else it

/-- One iteration of the `for x in thisOpt.rows` loop of `showItemsOnBoard`.
`map` is `opt.statesMap` (state key to column descriptor).  A row whose state
has no entry in the map is skipped entirely.  In full mode
(`thisOpt.refresh === false`) the row always becomes a new item; in refresh
mode the DOM is searched for the row's id: a miss is a new item (its html
carries `spwidget-temp` when `opt.initDone`), a hit marks the existing item
and re-parents it when its column's `data-boardstate` differs from the row's
state value. -/
def processRow (map : List (String × StateDef)) (initDone refresh : Bool)
    (st : PassSt) (r : Rec) : PassSt :=
  match List.lookup r.state map with
  | none => st
  | some colDef =>
    if refresh = false then
      { st with
        newItems := if initDone then st.newItems ++ [r] else st.newItems
        pending := st.pending ++ [{ id := r.ID, col := colDef.name, temp := false }] }
    else
      match st.board.find? (fun it => it.id = r.ID) with
      | none =>
        { st with
          newItems := if initDone then st.newItems ++ [r] else st.newItems
          pending := st.pending ++ [{ id := r.ID, col := colDef.name, temp := initDone }] }
      | some fst =>
        let moveNeeded := !(fst.col == r.state)
        { st with
          board := markItems r.ID colDef.name moveNeeded st.board
          chgItems := if moveNeeded then st.chgItems ++ [r] else st.chgItems }

/-- Turns the `delItems` array (which can hold `null` entries) into
`itemsModified` elements. -/
def delMOf (delItems : List (Option Rec)) : List MElem :=
  delItems.map fun o =>
    match o with
    | some r => MElem.record r
    | none => MElem.missing

/-- The event emissions at the end of `showItemsOnBoard`: everything is gated
on `opt.initDone`; `spwidget:boarditemadd` / `spwidget:boarditemremove` fire
only when their array is non-empty and carry `[theArray]` as `itemsModified`;
`spwidget:boardchange` fires when the concatenation
`newItems ++ delItems ++ chgItems` is non-empty and carries that flat
concatenation. -/
def mkEvents (initDone : Bool) (newItems chgItems : List Rec) (delM : List MElem) :
    List Ev :=
  if initDone then
    (if newItems.isEmpty then [] else [Ev.itemadd [PElem.many (newItems.map MElem.record)]])
    ++ (if delM.isEmpty then [] else [Ev.itemremove [PElem.many delM]])
    ++ (let combined := newItems.map (fun r => PElem.one (MElem.record r))
          ++ delM.map PElem.one
          ++ chgItems.map (fun r => PElem.one (MElem.record r));
        if combined.isEmpty then [] else [Ev.boardchange combined])
  else []

/-- The outcome of one `showItemsOnBoard` call: the board contents after the
pass, the three classification arrays, the ids of the swept (detached) items,
and the events that were triggered. -/
structure ReconcileResult where
  board : List BoardItem
  newItems : List Rec
  chgItems : List Rec
  delItems : List (Option Rec)
  delIds : List String
  events : List Ev
deriving DecidableEq, Repr

/-- `opt.showItemsOnBoard(options)`.  `map` is `opt.statesMap`, `listItems`
is `opt.listItems` (in the `refresh` method flow the freshly fetched rows are
stored there before this runs, so there `listItems = rows`), `board0` the
items currently in the DOM and `rows` is `thisOpt.rows`.  In full mode the
board is emptied first.  After the row loop the accumulated html strings are
appended (`doBoardInsert`), and when `opt.initDone && thisOpt.refresh` every
item not carrying `spwidget-temp` is pushed onto `delItems` (via
`getBoardItemDataObject`) and removed, after which the marker class is
cleared from the survivors. -/
def showItemsOnBoard (map : List (String × StateDef)) (listItems : List Rec)
    (board0 : List BoardItem) (rows : List Rec)
    (initDone refresh doBoardInsert : Bool) : ReconcileResult :=
  let board1 := if refresh then board0 else []
  let st := rows.foldl (processRow map initDone refresh)
    { board := board1, pending := [], newItems := [], chgItems := [] }
  let board2 := if doBoardInsert then st.board ++ st.pending else st.board
  let sweep := initDone && refresh
  let removed := board2.filter (fun it => !it.temp)
  let delIds := if sweep then removed.map (fun it => it.id) else []
  let delItems :=
    if sweep then removed.map (fun it => getBoardItemDataObject listItems it.id) else []
  let board3 :=
    if sweep then (board2.filter (fun it => it.temp)).map (fun it => { it with temp := false })
    else board2
  { board := board3
    newItems := st.newItems
    chgItems := st.chgItems
    delItems := delItems
    delIds := delIds
    events := mkEvents initDone st.newItems st.chgItems (delMOf delItems) }

/-!
## Column visibility (`setUserDefinedVisibleCol` and the initial assignment)
-/

/-- The argument of the public `setVisible` method / `setUserDefinedVisibleCol`:
either an array of column identifiers or a plain string (the documented
special value being `"all"`). -/
inductive ColArg where
  | arr (l : List String)
  | str (s : String)
deriving DecidableEq, Repr

/-- The inner `isValidColumn(colName)` helper: a name is valid when some
state's `title` or `name` equals it. -/
def isValidColumn (states : List StateDef) (colName : String) : Bool :=
  states.any fun state => state.title == colName || state.name == colName

/-- The validation loop of `setUserDefinedVisibleCol` ("Validate that at
least 2 of the column names are valid"): counts valid entries, breaking out
as soon as the count reaches 2.  The source computes this count and then
never consults it — the apply loop below runs regardless. -/
def validationCount (states : List StateDef) : List String → Nat → Nat
  | [], count => count
  | col :: rest, count =>
    let count' := if isValidColumn states col then count + 1 else count
    if count' = 2 then count' else validationCount states rest count'

/-- The match test of the apply loop:
`$.inArray(colDef.title, colList) > -1 || $.inArray(colDef.name, colList) > -1`. -/
def matchesCol (colList : List String) (colDef : StateDef) : Bool :=
  colList.contains colDef.title || colList.contains colDef.name

/-- JavaScript's `String.prototype.toLowerCase`, modelled character-wise
(`String.toLower` itself has no reduction rules usable in proofs). -/
def jsToLowerCase (s : String) : String :=
  String.mk (s.data.map Char.toLower)

/-- The `$.each(opt.states, ...)` apply loop of `setUserDefinedVisibleCol`:
walks the states in board order; a state in the list becomes visible (and
bumps `count`), any other state becomes hidden; as soon as
`count >= opt.maxColumnVisible` the loop `return false`s, leaving every
later state untouched.  Returns the updated states and the final `count`. -/
def applyVisLoop (colList : List String) (maxVis : Nat) :
    List StateDef → Nat → List StateDef × Nat
  | [], count => ([], count)
  | colDef :: rest, count =>
    let matched := matchesCol colList colDef
    let colDef' := { colDef with isVisible := matched }
    let count' := if matched then count + 1 else count
    if maxVis ≤ count' then (colDef' :: rest, count')
    else
      let out := applyVisLoop colList maxVis rest count'
      (colDef' :: out.1, out.2)

/-- Result of a `setUserDefinedVisibleCol` call.  The source function always
ends in a bare `return;` (it never produces a boolean); `applied` records
whether the call got past the early-return guards and ran the apply loop. -/
structure VisResult where
  states : List StateDef
  applied : Bool
  count : Nat
deriving DecidableEq, Repr

/-- `opt.setUserDefinedVisibleCol(colList)`.  A falsy argument returns at
once.  A non-array argument other than `"all"` returns; `"all"` (and the
truthy empty array) set `showAll` and replace `colList` with `[]` — after
which the `colList.length < 2` guard returns unconditionally, so the
`showAll` branch never reaches the apply loop.  The validation count is
computed but never consulted, and the apply loop then runs. -/
def setUserDefinedVisibleCol (states : List StateDef) (maxColumnVisible : Nat)
    (colList : ColArg) : VisResult :=
  let noChange : VisResult := { states := states, applied := false, count := 0 }
  -- if (!colList) return;   (the empty string is falsy; arrays are truthy)
  if colList = ColArg.str "" then noChange
  else
    -- if (!$.isArray(colList) || !colList.length) { ... showAll = true; colList = []; }
    let resolved : Option (List String) :=
      match colList with
      | ColArg.arr l => if l.isEmpty then some [] else some l
      | ColArg.str s => if jsToLowerCase s = "all" then some [] else none
    match resolved with
    | none => noChange
    | some l =>
      -- if (colList.length < 2) return;
      if l.length < 2 then noChange
      else
        let _validCount := validationCount states l 0
        let out := applyVisLoop l maxColumnVisible states 0
        { states := out.1, applied := true, count := out.2 }

/-- The initialization-time visibility assignment of `showBoard` (the
`$.each(opt.states, ...)` that builds the columns): every column starts
visible, and a column whose index `i` satisfies
`i > opt.maxColumnVisible - 1` is hidden.  `i` is the running index, so the
whole assignment is `initialVisibility maxVis 0 states`. -/
def initialVisibility (maxVis : Nat) : Nat → List StateDef → List StateDef
  | _, [] => []
  | i, colDef :: rest =>
    ({ colDef with isVisible := if maxVis ≤ i then false else true })
      :: initialVisibility maxVis (i + 1) rest

/-- Number of visible columns of a state list. -/
def countVisible (states : List StateDef) : Nat :=
  states.countP fun colDef => colDef.isVisible

/-!
## Column construction (`getBoardStates`)
-/

/-- `isStateRequired` as computed by `getBoardStates`: it starts `false`, is
set when `f.Required === "TRUE"`, and is overridden by a boolean
`opt.allowFieldBlanks` (`isStateRequired = !allowFieldBlanks`). -/
def computeIsStateRequired (fRequired : String) (allowFieldBlanks : Option Bool) : Bool :=
  let fromField := fRequired == "TRUE"
  match allowFieldBlanks with
  | some b => !b
  | none => fromField

/-- `opt.statesMap[key] = value` on a JavaScript object: a later assignment
to an existing key overwrites it, otherwise the key is appended. -/
def mapSet (m : List (String × StateDef)) (k : String) (v : StateDef) :
    List (String × StateDef) :=
  if m.any (fun p => p.1 == k) then
    m.map fun p => if p.1 = k then (k, v) else p
  else m ++ [(k, v)]

/-- The `f.getColumnValues().some(...)` loop of the choice branch: a value
filtered out by `fieldFilter` is skipped (the index still advances); once an
unfiltered value's index reaches `Board.maxColumns` the loop breaks with a
console warning; otherwise a state with `title = name = colValue` is pushed
and registered in the map under the value itself. -/
def choiceValueLoop (filter : Option (List String)) (maxCols : Nat) :
    List String → Nat → List StateDef → List (String × StateDef) →
    List StateDef × List (String × StateDef)
  | [], _, states, map => (states, map)
  | colValue :: rest, i, states, map =>
    if (match filter with
        | some fl => !fl.contains colValue
        | none => false) then
      choiceValueLoop filter maxCols rest (i + 1) states map
    else if maxCols ≤ i then (states, map)
    else
      let st : StateDef := { type := "choice", title := colValue, name := colValue }
      choiceValueLoop filter maxCols rest (i + 1) (states ++ [st]) (mapSet map colValue st)

/-- The choice branch of `getBoardStates`: when the field is not required a
blank state is pushed first, with both `title` and `name` equal to
`opt.optionalLabel`, registered in `statesMap` under the key `""`; then the
field's values are walked (with the comma-split `fieldFilter`, applied only
when the filter string is truthy). -/
def getBoardStatesChoice (fRequired : String) (allowFieldBlanks : Option Bool)
    (optionalLabel : String) (fieldFilter : Option String) (values : List String) :
    List StateDef × List (String × StateDef) :=
  let isStateRequired := computeIsStateRequired fRequired allowFieldBlanks
  let blank : StateDef := { type := "choice", title := optionalLabel, name := optionalLabel }
  let start : List StateDef × List (String × StateDef) :=
    if !isStateRequired then ([blank], mapSet [] "" blank) else ([], [])
  let filter : Option (List String) :=
    match fieldFilter with
    | none => none
    | some s => if s = "" then none else some (s.splitOn ",")
  choiceValueLoop filter Board.maxColumns values 0 start.1 start.2

/-- A row of the lookup list: its `ID` and the value of the field named by
`f.ShowField`. -/
structure LookupRow where
  ID : String
  showValue : String
deriving DecidableEq, Repr

/-- The `rows.some(...)` loop of the lookup branch: breaks once the index
reaches `Board.maxColumns`; otherwise pushes a state titled by the row's
display value whose internal name is the composite `ID ;# displayValue`. -/
def lookupRowLoop (maxCols : Nat) :
    List LookupRow → Nat → List StateDef → List (String × StateDef) →
    List StateDef × List (String × StateDef)
  | [], _, states, map => (states, map)
  | row :: rest, i, states, map =>
    if maxCols ≤ i then (states, map)
    else
      let thisName := row.ID ++ ";#" ++ row.showValue
      let st : StateDef := { type := "lookup", title := row.showValue, name := thisName }
      lookupRowLoop maxCols rest (i + 1) (states ++ [st]) (mapSet map thisName st)

/-- The lookup branch of `getBoardStates`: when the field is not required a
blank state is pushed first with `title = opt.optionalLabel` and
`name = ""`, registered in `statesMap` under the key `""`; then the rows of
the lookup list are walked. -/
def getBoardStatesLookup (fRequired : String) (allowFieldBlanks : Option Bool)
    (optionalLabel : String) (rows : List LookupRow) :
    List StateDef × List (String × StateDef) :=
  let isStateRequired := computeIsStateRequired fRequired allowFieldBlanks
  let blank : StateDef := { type := "lookup", title := optionalLabel, name := "" }
  let start : List StateDef × List (String × StateDef) :=
    if !isStateRequired then ([blank], mapSet [] "" blank) else ([], [])
  lookupRowLoop Board.maxColumns rows 0 start.1 start.2

/-!
## Move synchronizer (the `sortreceive` handler of `showBoard`)
-/

/-- The response handed to the `completefunc` of `updateListItems`, as the
handler consumes it: the transport `status` string, the raw response
(opaque, of type `α`), whether `doesMsgHaveError` holds of it, the message
`getMsgError` extracts, and the `z:row` nodes `getNodesFromXml` extracts. -/
structure UpdateResponse (α : Type) where
  status : String
  xData : α
  hasError : Bool
  errorMsg : String
  rows : List Rec
deriving DecidableEq, Repr

/-- The externally observable steps the handler performs once the remote
call completes, in order: re-triggering `spwidget:boardchange`, resolving
the update promise with `(row[0], evData.itemObj, xData)`, or rejecting it
with `(message, xData, status)`. -/
inductive SyncAction (α : Type) where
  | emitChange
  | resolve (row : Option Rec) (itemObj : Rec) (xData : α)
  | reject (msg : String) (xData : α) (status : String)
deriving DecidableEq, Repr

/-- The `completefunc` of the `updateListItems` call inside the
`sortreceive` handler: a transport error (`status === "error"`) rejects with
`'Communications Error!'`; a server-reported error (`doesMsgHaveError`)
rejects with the extracted message; otherwise `spwidget:boardchange` is
re-triggered and then the promise is resolved with
`(row[0], evData.itemObj, xData)`. -/
def completefunc {α : Type} (itemObj : Rec) (resp : UpdateResponse α) :
    List (SyncAction α) :=
  if resp.status = "error" then
    [SyncAction.reject "Communications Error!" resp.xData resp.status]
  else if resp.hasError then
    [SyncAction.reject resp.errorMsg resp.xData resp.status]
  else
    [SyncAction.emitChange, SyncAction.resolve resp.rows.head? itemObj resp.xData]

/-- Result of one `sortreceive` drag gesture: the remote `updateListItems`
call that was issued (item id and `valuepairs`), if any, and the ordered
actions performed when it completed. -/
structure SortReceiveResult (α : Type) where
  remoteCall : Option (String × List (String × String))
  actions : List (SyncAction α)
deriving DecidableEq, Repr

/-- The `sortreceive` handler of `showBoard`.  `evData.updates` starts as
`[[opt.field, evData.currentState]]`; the optional `onPreUpdate` hook
receives the updates by reference (modelled as a function from the updates
to the new updates paired with the `=== true` outcome of its return value).
If the hook returns `true`, or the updates are empty afterwards, the handler
returns without issuing a remote call and without performing any action (in
particular it never repositions the dropped item).  Otherwise
`updateListItems` is issued with the accumulated value pairs and `resp`
models the response its `completefunc` receives. -/
def sortReceiveHandler {α : Type} (field currentState : String) (itemObj : Rec)
    (onPreUpdate : Option (List (String × String) → List (String × String) × Bool))
    (resp : UpdateResponse α) : SortReceiveResult α :=
  let updates0 : List (String × String) := [(field, currentState)]
  let hooked :=
    match onPreUpdate with
    | some hook => hook updates0
    | none => (updates0, false)
  if hooked.2 then { remoteCall := none, actions := [] }
  else if hooked.1.isEmpty then { remoteCall := none, actions := [] }
  else
    { remoteCall := some (itemObj.ID, hooked.1)
      actions := completefunc itemObj resp }

/-!
## Reconciliation lemmas

The key invariant of the refresh row loop: an item of the pre-existing board
ends up carrying the `spwidget-temp` marker exactly when some fresh row both
has its id and has a state that resolves in `opt.statesMap`.
-/

/-- `anyHit map rows x`: some row of `rows` carries the id `x` and a state
key present in the states map. -/
def anyHit (map : List (String × StateDef)) (rows : List Rec) (x : String) : Bool :=
  rows.any fun r => (List.lookup r.state map).isSome && r.ID == x

theorem markItems_map_idTemp (rid colName : String) (m : Bool) (board : List BoardItem) :
    (markItems rid colName m board).map (fun it => (it.id, it.temp)) =
      board.map (fun it => (it.id, it.temp || (rid == it.id))) := by
  unfold markItems
  rw [List.map_map]
  refine List.map_congr_left fun it _ => ?_
  by_cases hid : it.id = rid
  · simp [Function.comp, hid]
  · have hbe : (rid == it.id) = false := by
      rw [beq_eq_false_iff_ne]
      exact fun he => hid he.symm
    simp [Function.comp, hid, hbe]

theorem processRow_board_idTemp (map : List (String × StateDef)) (initDone : Bool)
    (st : PassSt) (r : Rec) :
    (processRow map initDone true st r).board.map (fun it => (it.id, it.temp)) =
      st.board.map (fun it =>
        (it.id, it.temp || ((List.lookup r.state map).isSome && r.ID == it.id))) := by
  unfold processRow
  cases hl : List.lookup r.state map with
  | none =>
    dsimp only
    refine (List.map_congr_left fun it _ => ?_).symm
    simp
  | some colDef =>
    dsimp only
    rw [if_neg (by simp)]
    cases hf : st.board.find? (fun it => it.id = r.ID) with
    | none =>
      dsimp only
      refine (List.map_congr_left fun it hit => ?_).symm
      have hne : ¬ (it.id = r.ID) := by simpa using List.find?_eq_none.mp hf it hit
      have hbe : (r.ID == it.id) = false := by
        rw [beq_eq_false_iff_ne]
        exact fun he => hne he.symm
      simp [hbe]
    | some fst =>
      dsimp only
      rw [markItems_map_idTemp]
      refine List.map_congr_left fun it _ => ?_
      simp

theorem foldl_board_idTemp (map : List (String × StateDef)) (initDone : Bool)
    (rows : List Rec) (st : PassSt) :
    (rows.foldl (processRow map initDone true) st).board.map (fun it => (it.id, it.temp)) =
      st.board.map (fun it => (it.id, it.temp || anyHit map rows it.id)) := by
  induction rows generalizing st with
  | nil => simp [anyHit]
  | cons r rest ih =>
    rw [List.foldl_cons, ih (processRow map initDone true st r)]
    have hfac :
        (fun it : BoardItem => (it.id, it.temp || anyHit map rest it.id)) =
          (fun p : String × Bool => (p.1, p.2 || anyHit map rest p.1)) ∘
            (fun it : BoardItem => (it.id, it.temp)) := by
      funext it; rfl
    rw [hfac, ← List.map_map, processRow_board_idTemp, List.map_map]
    refine List.map_congr_left fun it _ => ?_
    simp [Function.comp, anyHit, Bool.or_assoc]

theorem processRow_pending_mem (map : List (String × StateDef)) (initDone : Bool)
    (st : PassSt) (r : Rec) :
    ∀ it ∈ (processRow map initDone true st r).pending,
      it ∈ st.pending ∨ it.temp = initDone := by
  unfold processRow
  cases hl : List.lookup r.state map with
  | none => exact fun it h => Or.inl h
  | some colDef =>
    dsimp only
    rw [if_neg (by simp)]
    cases hf : st.board.find? (fun it => it.id = r.ID) with
    | none =>
      dsimp only
      intro it h
      rw [List.mem_append] at h
      rcases h with h | h
      · exact Or.inl h
      · rw [List.mem_singleton] at h
        subst h
        exact Or.inr rfl
    | some fst => exact fun it h => Or.inl h

theorem foldl_pending_temp (map : List (String × StateDef)) (initDone : Bool)
    (rows : List Rec) (st : PassSt) :
    ∀ it ∈ (rows.foldl (processRow map initDone true) st).pending,
      it ∈ st.pending ∨ it.temp = initDone := by
  induction rows generalizing st with
  | nil => exact fun it hit => Or.inl hit
  | cons r rest ih =>
    intro it hit
    rw [List.foldl_cons] at hit
    rcases ih (processRow map initDone true st r) it hit with h | h
    · exact processRow_pending_mem map initDone st r it h
    · exact Or.inr h

theorem processRow_newItems_mem (map : List (String × StateDef)) (initDone refresh : Bool)
    (st : PassSt) (r : Rec) :
    ∀ q ∈ (processRow map initDone refresh st r).newItems,
      q ∈ st.newItems ∨ (List.lookup q.state map).isSome = true := by
  unfold processRow
  cases hl : List.lookup r.state map with
  | none => exact fun q h => Or.inl h
  | some colDef =>
    dsimp only
    by_cases hrf : refresh = false
    · rw [if_pos hrf]
      dsimp only
      by_cases hin : initDone = true
      · rw [if_pos hin]
        intro q h
        rw [List.mem_append] at h
        rcases h with h | h
        · exact Or.inl h
        · rw [List.mem_singleton] at h
          subst h
          right; rw [hl]; rfl
      · rw [if_neg hin]
        exact fun q h => Or.inl h
    · rw [if_neg hrf]
      cases hf : st.board.find? (fun it => it.id = r.ID) with
      | none =>
        dsimp only
        by_cases hin : initDone = true
        · rw [if_pos hin]
          intro q h
          rw [List.mem_append] at h
          rcases h with h | h
          · exact Or.inl h
          · rw [List.mem_singleton] at h
            subst h
            right; rw [hl]; rfl
        · rw [if_neg hin]
          exact fun q h => Or.inl h
      | some fst => exact fun q h => Or.inl h

theorem processRow_chgItems_mem (map : List (String × StateDef)) (initDone refresh : Bool)
    (st : PassSt) (r : Rec) :
    ∀ q ∈ (processRow map initDone refresh st r).chgItems,
      q ∈ st.chgItems ∨ (List.lookup q.state map).isSome = true := by
  unfold processRow
  cases hl : List.lookup r.state map with
  | none => exact fun q h => Or.inl h
  | some colDef =>
    dsimp only
    by_cases hrf : refresh = false
    · rw [if_pos hrf]
      exact fun q h => Or.inl h
    · rw [if_neg hrf]
      cases hf : st.board.find? (fun it => it.id = r.ID) with
      | none => exact fun q h => Or.inl h
      | some fst =>
        dsimp only
        by_cases hm : (!(fst.col == r.state)) = true
        · rw [if_pos hm]
          intro q h
          rw [List.mem_append] at h
          rcases h with h | h
          · exact Or.inl h
          · rw [List.mem_singleton] at h
            subst h
            right; rw [hl]; rfl
        · rw [if_neg hm]
          exact fun q h => Or.inl h

theorem foldl_newItems_hit (map : List (String × StateDef)) (initDone refresh : Bool)
    (rows : List Rec) (st : PassSt) :
    ∀ q ∈ (rows.foldl (processRow map initDone refresh) st).newItems,
      q ∈ st.newItems ∨ (List.lookup q.state map).isSome = true := by
  induction rows generalizing st with
  | nil => exact fun q hq => Or.inl hq
  | cons r rest ih =>
    intro q hq
    rw [List.foldl_cons] at hq
    rcases ih (processRow map initDone refresh st r) q hq with h | h
    · exact processRow_newItems_mem map initDone refresh st r q h
    · exact Or.inr h

theorem foldl_chgItems_hit (map : List (String × StateDef)) (initDone refresh : Bool)
    (rows : List Rec) (st : PassSt) :
    ∀ q ∈ (rows.foldl (processRow map initDone refresh) st).chgItems,
      q ∈ st.chgItems ∨ (List.lookup q.state map).isSome = true := by
  induction rows generalizing st with
  | nil => exact fun q hq => Or.inl hq
  | cons r rest ih =>
    intro q hq
    rw [List.foldl_cons] at hq
    rcases ih (processRow map initDone refresh st r) q hq with h | h
    · exact processRow_chgItems_mem map initDone refresh st r q h
    · exact Or.inr h

theorem showItemsOnBoard_delIds_refresh (map : List (String × StateDef))
    (listItems : List Rec) (board0 : List BoardItem) (rows : List Rec) :
    (showItemsOnBoard map listItems board0 rows true true true).delIds =
      (((rows.foldl (processRow map true true)
            { board := board0, pending := [], newItems := [], chgItems := [] }).board
          ++ (rows.foldl (processRow map true true)
            { board := board0, pending := [], newItems := [], chgItems := [] }).pending).filter
        (fun it => !it.temp)).map (fun it => it.id) := rfl

theorem showItemsOnBoard_newItems (map : List (String × StateDef)) (listItems : List Rec)
    (board0 : List BoardItem) (rows : List Rec) (initDone refresh doBoardInsert : Bool) :
    (showItemsOnBoard map listItems board0 rows initDone refresh doBoardInsert).newItems =
      (rows.foldl (processRow map initDone refresh)
        { board := if refresh then board0 else [], pending := [],
          newItems := [], chgItems := [] }).newItems := rfl

theorem showItemsOnBoard_chgItems (map : List (String × StateDef)) (listItems : List Rec)
    (board0 : List BoardItem) (rows : List Rec) (initDone refresh doBoardInsert : Bool) :
    (showItemsOnBoard map listItems board0 rows initDone refresh doBoardInsert).chgItems =
      (rows.foldl (processRow map initDone refresh)
        { board := if refresh then board0 else [], pending := [],
          newItems := [], chgItems := [] }).chgItems := rfl

theorem showItemsOnBoard_events (map : List (String × StateDef)) (listItems : List Rec)
    (board0 : List BoardItem) (rows : List Rec) (initDone refresh doBoardInsert : Bool) :
    (showItemsOnBoard map listItems board0 rows initDone refresh doBoardInsert).events =
      mkEvents initDone
        (showItemsOnBoard map listItems board0 rows initDone refresh doBoardInsert).newItems
        (showItemsOnBoard map listItems board0 rows initDone refresh doBoardInsert).chgItems
        (delMOf
          (showItemsOnBoard map listItems board0 rows initDone refresh doBoardInsert).delItems) :=
  rfl

/-- Membership in the swept-item ids of a refresh pass (`opt.initDone` true):
an id is detached exactly when some pre-existing item carries it and no fresh
row both has the id and a state that resolves in `opt.statesMap`. -/
theorem mem_delIds_iff (map : List (String × StateDef)) (listItems : List Rec)
    (board0 : List BoardItem) (rows : List Rec) (x : String)
    (hTemp : ∀ it ∈ board0, it.temp = false) :
    x ∈ (showItemsOnBoard map listItems board0 rows true true true).delIds ↔
      (∃ it ∈ board0, it.id = x) ∧ anyHit map rows x = false := by
  rw [showItemsOnBoard_delIds_refresh]
  constructor
  · intro hmem
    rw [List.mem_map] at hmem
    obtain ⟨it2, hit2, hid⟩ := hmem
    rw [List.mem_filter] at hit2
    obtain ⟨hmem2, htemp⟩ := hit2
    rw [List.mem_append] at hmem2
    rcases hmem2 with hmem2 | hmem2
    · have hpair : (it2.id, it2.temp) ∈
          (rows.foldl (processRow map true true)
            { board := board0, pending := [], newItems := [], chgItems := [] }).board.map
              (fun it => (it.id, it.temp)) :=
        List.mem_map_of_mem _ hmem2
      rw [foldl_board_idTemp] at hpair
      rw [List.mem_map] at hpair
      obtain ⟨it, hit, heq⟩ := hpair
      have hid2 : it.id = it2.id := congrArg Prod.fst heq
      have htmp : (it.temp || anyHit map rows it.id) = it2.temp := congrArg Prod.snd heq
      rw [hTemp it hit, Bool.false_or] at htmp
      refine ⟨⟨it, hit, by rw [hid2, hid]⟩, ?_⟩
      rw [hid2, hid] at htmp
      rw [htmp]
      simpa using htemp
    · have := foldl_pending_temp map true rows
        { board := board0, pending := [], newItems := [], chgItems := [] } it2 hmem2
      rcases this with h | h
      · exact absurd h (List.not_mem_nil it2)
      · rw [h] at htemp
        simp at htemp
  · rintro ⟨⟨it, hit, hid⟩, hmiss⟩
    have hpair : (it.id, it.temp || anyHit map rows it.id) ∈
        board0.map (fun i => (i.id, i.temp || anyHit map rows i.id)) :=
      List.mem_map_of_mem _ hit
    rw [← foldl_board_idTemp map true rows
      { board := board0, pending := [], newItems := [], chgItems := [] }] at hpair
    rw [List.mem_map] at hpair
    obtain ⟨it2, hmem, heq⟩ := hpair
    rw [List.mem_map]
    refine ⟨it2, ?_, ?_⟩
    · rw [List.mem_filter]
      refine ⟨List.mem_append.mpr (Or.inl hmem), ?_⟩
      have htmp : it2.temp = (it.temp || anyHit map rows it.id) :=
        congrArg Prod.snd heq
      rw [hTemp it hit, Bool.false_or, hid, hmiss] at htmp
      rw [htmp]
      rfl
    · have hfst : it2.id = it.id := congrArg Prod.fst heq
      rw [hfst, hid]

theorem anyHit_eq_true_iff (map : List (String × StateDef)) (rows : List Rec) (x : String) :
    anyHit map rows x = true ↔
      ∃ r ∈ rows, r.ID = x ∧ (List.lookup r.state map).isSome = true := by
  unfold anyHit
  rw [List.any_eq_true]
  constructor
  · rintro ⟨r, hr, hp⟩
    rw [Bool.and_eq_true] at hp
    exact ⟨r, hr, by simpa [beq_iff_eq] using hp.2, hp.1⟩
  · rintro ⟨r, hr, hid, hsome⟩
    refine ⟨r, hr, ?_⟩
    rw [Bool.and_eq_true]
    exact ⟨hsome, by simpa [beq_iff_eq] using hid⟩

theorem delMOf_eq_nil_iff (delItems : List (Option Rec)) :
    delMOf delItems = [] ↔ delItems = [] := by
  unfold delMOf
  rw [List.map_eq_nil_iff]

theorem mkEvents_spec (initDone : Bool) (newItems chgItems : List Rec) (delM : List MElem) :
    ((∃ p, Ev.itemadd p ∈ mkEvents initDone newItems chgItems delM) ↔
      initDone = true ∧ newItems ≠ [])
    ∧ ((∃ p, Ev.itemremove p ∈ mkEvents initDone newItems chgItems delM) ↔
      initDone = true ∧ delM ≠ [])
    ∧ ((∃ p, Ev.boardchange p ∈ mkEvents initDone newItems chgItems delM) ↔
      initDone = true ∧ (newItems ≠ [] ∨ delM ≠ [] ∨ chgItems ≠ []))
    ∧ (initDone = false → mkEvents initDone newItems chgItems delM = []) := by
  unfold mkEvents
  cases initDone with
  | false => simp
  | true =>
    by_cases h1 : newItems.isEmpty
    <;> by_cases h2 : delM.isEmpty
    <;> by_cases h3 : chgItems.isEmpty
    <;> simp_all [List.isEmpty_iff]

/-- The payloads carried by the three events, should they appear at all. -/
theorem mkEvents_payloads (initDone : Bool) (newItems chgItems : List Rec)
    (delM : List MElem) (p : List PElem) :
    (Ev.itemadd p ∈ mkEvents initDone newItems chgItems delM →
      p = [PElem.many (newItems.map MElem.record)])
    ∧ (Ev.itemremove p ∈ mkEvents initDone newItems chgItems delM →
      p = [PElem.many delM])
    ∧ (Ev.boardchange p ∈ mkEvents initDone newItems chgItems delM →
      p = newItems.map (fun r => PElem.one (MElem.record r))
        ++ delM.map PElem.one
        ++ chgItems.map (fun r => PElem.one (MElem.record r))) := by
  unfold mkEvents
  cases initDone with
  | false => simp
  | true =>
    by_cases h1 : newItems.isEmpty
    <;> by_cases h2 : delM.isEmpty
    <;> by_cases h3 : chgItems.isEmpty
    <;> simp_all [List.isEmpty_iff]

/-!
## Concrete fixtures used by witnesses and counterexamples
-/

/-- A two-column states map (`A` and `B`, as a choice field would build). -/
def exMap : List (String × StateDef) :=
  [("A", { type := "choice", title := "A", name := "A" }),
   ("B", { type := "choice", title := "B", name := "B" })]

/-!
## Claim C1
-/

/-- C1, counterexample to the claim as stated.  The previously rendered item
`id "1"` sits under column `A`; the fresh record set contains a record with
id `"1"` whose state `"C"` resolves to no column of the states map.  The
claim says an item is removed if and only if its identifier did not appear
in the fresh record set — but here the identifier does appear, and the item
is nevertheless classified as removed and detached. -/
theorem c1_counterexample :
    ¬ (∀ it ∈ [({ id := "1", col := "A", temp := false } : BoardItem)],
        (it.id ∈ (showItemsOnBoard exMap [{ ID := "1", state := "C" }]
            [{ id := "1", col := "A", temp := false }]
            [{ ID := "1", state := "C" }] true true true).delIds ↔
          it.id ∉ ([({ ID := "1", state := "C" } : Rec)]).map Rec.ID)) := by
  decide

/-- C1 (amended): in a refresh pass with `opt.initDone` set (no item of the
previous board still carrying the `spwidget-temp` marker), a previously
rendered item is classified as removed and detached if and only if **no**
fresh record both carries its identifier and has a state that resolves in
the states map; and a fresh record whose state resolves to no column is
neither classified as added nor as moved (it is simply not rendered). -/
theorem c1_removed_iff (map : List (String × StateDef)) (listItems rows : List Rec)
    (board0 : List BoardItem)
    (hTemp : ∀ it ∈ board0, it.temp = false) :
    (∀ it ∈ board0,
      (it.id ∈ (showItemsOnBoard map listItems board0 rows true true true).delIds ↔
        ¬ ∃ r ∈ rows, r.ID = it.id ∧ (List.lookup r.state map).isSome = true))
    ∧ (∀ r ∈ rows, List.lookup r.state map = none →
        r ∉ (showItemsOnBoard map listItems board0 rows true true true).newItems ∧
        r ∉ (showItemsOnBoard map listItems board0 rows true true true).chgItems) := by
  constructor
  · intro it hit
    rw [mem_delIds_iff map listItems board0 rows it.id hTemp]
    constructor
    · rintro ⟨_, hmiss⟩ hex
      rw [← anyHit_eq_true_iff map rows it.id] at hex
      rw [hmiss] at hex
      exact Bool.false_ne_true hex
    · intro hno
      refine ⟨⟨it, hit, rfl⟩, ?_⟩
      cases hAH : anyHit map rows it.id with
      | false => rfl
      | true => exact absurd ((anyHit_eq_true_iff map rows it.id).mp hAH) hno
  · intro r hr hnone
    constructor
    · intro hmem
      rw [showItemsOnBoard_newItems] at hmem
      rcases foldl_newItems_hit map true true rows _ r hmem with h | h
      · exact List.not_mem_nil r h
      · rw [hnone] at h
        exact Bool.false_ne_true h
    · intro hmem
      rw [showItemsOnBoard_chgItems] at hmem
      rcases foldl_chgItems_hit map true true rows _ r hmem with h | h
      · exact List.not_mem_nil r h
      · rw [hnone] at h
        exact Bool.false_ne_true h

/-- Witness for `c1_removed_iff` at a concrete input: board items `1` and
`2` under `A`, fresh rows move `2` to `B`, add `3` under `A`, and carry a
record with the unresolvable state `"C"`. -/
theorem c1_removed_iff_witness :
    (∀ it ∈ [({ id := "1", col := "A", temp := false } : BoardItem),
             { id := "2", col := "A", temp := false }],
      (it.id ∈ (showItemsOnBoard exMap
          [{ ID := "2", state := "B" }, { ID := "3", state := "A" },
           { ID := "4", state := "C" }]
          [{ id := "1", col := "A", temp := false },
           { id := "2", col := "A", temp := false }]
          [{ ID := "2", state := "B" }, { ID := "3", state := "A" },
           { ID := "4", state := "C" }] true true true).delIds ↔
        ¬ ∃ r ∈ [({ ID := "2", state := "B" } : Rec), { ID := "3", state := "A" },
            { ID := "4", state := "C" }],
          r.ID = it.id ∧ (List.lookup r.state exMap).isSome = true))
    ∧ (∀ r ∈ [({ ID := "2", state := "B" } : Rec), { ID := "3", state := "A" },
          { ID := "4", state := "C" }],
        List.lookup r.state exMap = none →
        r ∉ (showItemsOnBoard exMap
            [{ ID := "2", state := "B" }, { ID := "3", state := "A" },
             { ID := "4", state := "C" }]
            [{ id := "1", col := "A", temp := false },
             { id := "2", col := "A", temp := false }]
            [{ ID := "2", state := "B" }, { ID := "3", state := "A" },
             { ID := "4", state := "C" }] true true true).newItems ∧
        r ∉ (showItemsOnBoard exMap
            [{ ID := "2", state := "B" }, { ID := "3", state := "A" },
             { ID := "4", state := "C" }]
            [{ id := "1", col := "A", temp := false },
             { id := "2", col := "A", temp := false }]
            [{ ID := "2", state := "B" }, { ID := "3", state := "A" },
             { ID := "4", state := "C" }] true true true).chgItems) :=
  c1_removed_iff exMap
    [{ ID := "2", state := "B" }, { ID := "3", state := "A" }, { ID := "4", state := "C" }]
    [{ ID := "2", state := "B" }, { ID := "3", state := "A" }, { ID := "4", state := "C" }]
    [{ id := "1", col := "A", temp := false }, { id := "2", col := "A", temp := false }]
    (by decide)

/-!
## Claim C2
-/

/-- C2: for every reconciliation pass, the `spwidget:boarditemadd`,
`spwidget:boarditemremove` and combined `spwidget:boardchange` events are
emitted exactly when the corresponding classification set is non-empty *and*
`opt.initDone` is true; with the initialization flag still false (as in the
very first full-mode pass, which runs before `opt.initDone = true` is set)
no event at all is emitted. -/
theorem c2_notification_policy (map : List (String × StateDef)) (listItems : List Rec)
    (board0 : List BoardItem) (rows : List Rec) (initDone refresh doBoardInsert : Bool) :
    ((∃ p, Ev.itemadd p ∈
        (showItemsOnBoard map listItems board0 rows initDone refresh doBoardInsert).events) ↔
      initDone = true ∧
        (showItemsOnBoard map listItems board0 rows initDone refresh doBoardInsert).newItems ≠ [])
    ∧ ((∃ p, Ev.itemremove p ∈
        (showItemsOnBoard map listItems board0 rows initDone refresh doBoardInsert).events) ↔
      initDone = true ∧
        (showItemsOnBoard map listItems board0 rows initDone refresh doBoardInsert).delItems ≠ [])
    ∧ ((∃ p, Ev.boardchange p ∈
        (showItemsOnBoard map listItems board0 rows initDone refresh doBoardInsert).events) ↔
      initDone = true ∧
        ((showItemsOnBoard map listItems board0 rows initDone refresh doBoardInsert).newItems ≠ []
          ∨ (showItemsOnBoard map listItems board0 rows initDone refresh doBoardInsert).delItems ≠ []
          ∨ (showItemsOnBoard map listItems board0 rows initDone refresh doBoardInsert).chgItems ≠ []))
    ∧ (initDone = false →
        (showItemsOnBoard map listItems board0 rows initDone refresh doBoardInsert).events = []) := by
  rw [showItemsOnBoard_events]
  have hspec := mkEvents_spec initDone
    (showItemsOnBoard map listItems board0 rows initDone refresh doBoardInsert).newItems
    (showItemsOnBoard map listItems board0 rows initDone refresh doBoardInsert).chgItems
    (delMOf (showItemsOnBoard map listItems board0 rows initDone refresh doBoardInsert).delItems)
  have hdel : delMOf
      (showItemsOnBoard map listItems board0 rows initDone refresh doBoardInsert).delItems = [] ↔
      (showItemsOnBoard map listItems board0 rows initDone refresh doBoardInsert).delItems = [] :=
    delMOf_eq_nil_iff _
  refine ⟨?_, ?_, ?_, hspec.2.2.2⟩
  · rw [hspec.1]
  · rw [hspec.2.1]
    constructor
    · rintro ⟨h1, h2⟩
      exact ⟨h1, fun he => h2 (hdel.mpr he)⟩
    · rintro ⟨h1, h2⟩
      exact ⟨h1, fun he => h2 (hdel.mp he)⟩
  · rw [hspec.2.2.1]
    constructor
    · rintro ⟨h1, h2 | h2 | h2⟩
      · exact ⟨h1, Or.inl h2⟩
      · exact ⟨h1, Or.inr (Or.inl fun he => h2 (hdel.mpr he))⟩
      · exact ⟨h1, Or.inr (Or.inr h2)⟩
    · rintro ⟨h1, h2 | h2 | h2⟩
      · exact ⟨h1, Or.inl h2⟩
      · exact ⟨h1, Or.inr (Or.inl fun he => h2 (hdel.mp he))⟩
      · exact ⟨h1, Or.inr (Or.inr h2)⟩

/-- Witness for `c2_notification_policy`: the initial full-mode pass of the
fixture board emits no events (`initDone = false`), checked through the
theorem itself. -/
theorem c2_notification_policy_witness :
    ((∃ p, Ev.itemadd p ∈
        (showItemsOnBoard exMap [{ ID := "1", state := "A" }] []
          [{ ID := "1", state := "A" }] false false true).events) ↔
      false = true ∧
        (showItemsOnBoard exMap [{ ID := "1", state := "A" }] []
          [{ ID := "1", state := "A" }] false false true).newItems ≠ [])
    ∧ ((∃ p, Ev.itemremove p ∈
        (showItemsOnBoard exMap [{ ID := "1", state := "A" }] []
          [{ ID := "1", state := "A" }] false false true).events) ↔
      false = true ∧
        (showItemsOnBoard exMap [{ ID := "1", state := "A" }] []
          [{ ID := "1", state := "A" }] false false true).delItems ≠ [])
    ∧ ((∃ p, Ev.boardchange p ∈
        (showItemsOnBoard exMap [{ ID := "1", state := "A" }] []
          [{ ID := "1", state := "A" }] false false true).events) ↔
      false = true ∧
        ((showItemsOnBoard exMap [{ ID := "1", state := "A" }] []
            [{ ID := "1", state := "A" }] false false true).newItems ≠ []
          ∨ (showItemsOnBoard exMap [{ ID := "1", state := "A" }] []
              [{ ID := "1", state := "A" }] false false true).delItems ≠ []
          ∨ (showItemsOnBoard exMap [{ ID := "1", state := "A" }] []
              [{ ID := "1", state := "A" }] false false true).chgItems ≠ []))
    ∧ (false = false →
        (showItemsOnBoard exMap [{ ID := "1", state := "A" }] []
          [{ ID := "1", state := "A" }] false false true).events = []) :=
  c2_notification_policy exMap [{ ID := "1", state := "A" }] []
    [{ ID := "1", state := "A" }] false false true

/-!
## Claim C10
-/

/-- C10: the payload shape of `spwidget:boarditemadd` /
`spwidget:boarditemremove` differs from `spwidget:boardchange`: the first
two carry `itemsModified = [affectedArray]` (a one-element array whose
single element is the array of affected records), while the combined change
event carries the flat concatenation of the added, removed and moved
records. -/
theorem c10_payload_shapes (map : List (String × StateDef)) (listItems : List Rec)
    (board0 : List BoardItem) (rows : List Rec) (initDone refresh doBoardInsert : Bool)
    (p : List PElem) :
    (Ev.itemadd p ∈
        (showItemsOnBoard map listItems board0 rows initDone refresh doBoardInsert).events →
      p = [PElem.many
        ((showItemsOnBoard map listItems board0 rows initDone refresh doBoardInsert).newItems.map
          MElem.record)])
    ∧ (Ev.itemremove p ∈
        (showItemsOnBoard map listItems board0 rows initDone refresh doBoardInsert).events →
      p = [PElem.many
        (delMOf (showItemsOnBoard map listItems board0 rows initDone refresh doBoardInsert).delItems)])
    ∧ (Ev.boardchange p ∈
        (showItemsOnBoard map listItems board0 rows initDone refresh doBoardInsert).events →
      p = (showItemsOnBoard map listItems board0 rows initDone refresh doBoardInsert).newItems.map
            (fun r => PElem.one (MElem.record r))
        ++ (delMOf
            (showItemsOnBoard map listItems board0 rows initDone refresh doBoardInsert).delItems).map
              PElem.one
        ++ (showItemsOnBoard map listItems board0 rows initDone refresh doBoardInsert).chgItems.map
            (fun r => PElem.one (MElem.record r))) := by
  rw [showItemsOnBoard_events]
  exact mkEvents_payloads initDone _ _ _ p

/-- Witness for `c10_payload_shapes`: a refresh pass in which all three
events fire (`3` added, `1` removed with a `null` record entry, `2` moved),
with each membership hypothesis discharged by evaluation. -/
theorem c10_payload_shapes_witness :
    ([PElem.many [MElem.record { ID := "3", state := "A" }]]
      = [PElem.many
        ((showItemsOnBoard exMap [{ ID := "2", state := "B" }, { ID := "3", state := "A" }]
          [{ id := "1", col := "A", temp := false }, { id := "2", col := "A", temp := false }]
          [{ ID := "2", state := "B" }, { ID := "3", state := "A" }] true true true).newItems.map
          MElem.record)])
    ∧ ([PElem.many [MElem.missing]]
      = [PElem.many
        (delMOf (showItemsOnBoard exMap [{ ID := "2", state := "B" }, { ID := "3", state := "A" }]
          [{ id := "1", col := "A", temp := false }, { id := "2", col := "A", temp := false }]
          [{ ID := "2", state := "B" }, { ID := "3", state := "A" }] true true true).delItems)])
    ∧ ([PElem.one (MElem.record { ID := "3", state := "A" }), PElem.one MElem.missing,
        PElem.one (MElem.record { ID := "2", state := "B" })]
      = (showItemsOnBoard exMap [{ ID := "2", state := "B" }, { ID := "3", state := "A" }]
            [{ id := "1", col := "A", temp := false }, { id := "2", col := "A", temp := false }]
            [{ ID := "2", state := "B" }, { ID := "3", state := "A" }] true true true).newItems.map
          (fun r => PElem.one (MElem.record r))
        ++ (delMOf
            (showItemsOnBoard exMap [{ ID := "2", state := "B" }, { ID := "3", state := "A" }]
              [{ id := "1", col := "A", temp := false }, { id := "2", col := "A", temp := false }]
              [{ ID := "2", state := "B" }, { ID := "3", state := "A" }] true true true).delItems).map
          PElem.one
        ++ (showItemsOnBoard exMap [{ ID := "2", state := "B" }, { ID := "3", state := "A" }]
            [{ id := "1", col := "A", temp := false }, { id := "2", col := "A", temp := false }]
            [{ ID := "2", state := "B" }, { ID := "3", state := "A" }] true true true).chgItems.map
          (fun r => PElem.one (MElem.record r))) :=
  ⟨(c10_payload_shapes exMap [{ ID := "2", state := "B" }, { ID := "3", state := "A" }]
      [{ id := "1", col := "A", temp := false }, { id := "2", col := "A", temp := false }]
      [{ ID := "2", state := "B" }, { ID := "3", state := "A" }] true true true
      [PElem.many [MElem.record { ID := "3", state := "A" }]]).1 (by decide),
    (c10_payload_shapes exMap [{ ID := "2", state := "B" }, { ID := "3", state := "A" }]
      [{ id := "1", col := "A", temp := false }, { id := "2", col := "A", temp := false }]
      [{ ID := "2", state := "B" }, { ID := "3", state := "A" }] true true true
      [PElem.many [MElem.missing]]).2.1 (by decide),
    (c10_payload_shapes exMap [{ ID := "2", state := "B" }, { ID := "3", state := "A" }]
      [{ id := "1", col := "A", temp := false }, { id := "2", col := "A", temp := false }]
      [{ ID := "2", state := "B" }, { ID := "3", state := "A" }] true true true
      [PElem.one (MElem.record { ID := "3", state := "A" }), PElem.one MElem.missing,
        PElem.one (MElem.record { ID := "2", state := "B" })]).2.2 (by decide)⟩

/-!
## Claims C3, C4, C5, C9 — column visibility
-/

/-- Three-column fixture (all initially visible). -/
def exStates3 : List StateDef :=
  [{ type := "choice", title := "A", name := "A" },
   { type := "choice", title := "B", name := "B" },
   { type := "choice", title := "C", name := "C" }]

/-- Two-column fixture (all initially visible). -/
def exStates2 : List StateDef :=
  [{ type := "choice", title := "A", name := "A" },
   { type := "choice", title := "B", name := "B" }]

/-- Eleven-column fixture (all initially visible). -/
def exStates11 : List StateDef :=
  [{ type := "choice", title := "c1", name := "c1" },
   { type := "choice", title := "c2", name := "c2" },
   { type := "choice", title := "c3", name := "c3" },
   { type := "choice", title := "c4", name := "c4" },
   { type := "choice", title := "c5", name := "c5" },
   { type := "choice", title := "c6", name := "c6" },
   { type := "choice", title := "c7", name := "c7" },
   { type := "choice", title := "c8", name := "c8" },
   { type := "choice", title := "c9", name := "c9" },
   { type := "choice", title := "c10", name := "c10" },
   { type := "choice", title := "c11", name := "c11" }]

/-- The names of the eleven fixture columns, in caller-supplied order. -/
def exNames11 : List String :=
  ["c1", "c2", "c3", "c4", "c5", "c6", "c7", "c8", "c9", "c10", "c11"]

/-- C3 (code bug): the "at least 2 resolvable columns" validation is
computed but never enforced.  On the input `["A", "Bogus"]` only one entry
resolves (`validationCount` reaches 1), yet the apply loop still runs: `A`
stays visible while `B` and `C` are hidden — the visibility flags change
instead of the call being an all-or-nothing no-op (the source also ends in a
bare `return;`, so no boolean is ever produced). -/
theorem c3_validation_not_enforced :
    validationCount exStates3 ["A", "Bogus"] 0 = 1
    ∧ (setUserDefinedVisibleCol exStates3 10 (ColArg.arr ["A", "Bogus"])).applied = true
    ∧ (setUserDefinedVisibleCol exStates3 10 (ColArg.arr ["A", "Bogus"])).states
        = [{ type := "choice", title := "A", name := "A", isVisible := true },
           { type := "choice", title := "B", name := "B", isVisible := false },
           { type := "choice", title := "C", name := "C", isVisible := false }]
    ∧ countVisible (setUserDefinedVisibleCol exStates3 10 (ColArg.arr ["A", "Bogus"])).states
        = 1 := by
  decide

/-- C4 (code bug): the `"all"` keyword is dead.  The `showAll` branch
replaces `colList` with `[]`, after which the `colList.length < 2` guard
returns unconditionally — on a board with a hidden column, `setVisible("all")`
leaves every visibility flag unchanged (the hidden column stays hidden)
instead of making columns visible. -/
theorem c4_all_keyword_noop :
    setUserDefinedVisibleCol
      [{ type := "choice", title := "A", name := "A", isVisible := true },
       { type := "choice", title := "B", name := "B", isVisible := true },
       { type := "choice", title := "C", name := "C", isVisible := false }] 10
      (ColArg.str "all")
    = { states :=
          [{ type := "choice", title := "A", name := "A", isVisible := true },
           { type := "choice", title := "B", name := "B", isVisible := true },
           { type := "choice", title := "C", name := "C", isVisible := false }],
        applied := false, count := 0 } := by
  decide

/-- C5, counterexample to the claim as stated: with eleven columns all
visible and all eleven names in the input, the claim predicts that only the
first ten become visible and the eleventh becomes hidden — but the apply
loop breaks after the tenth match and leaves the eleventh column untouched,
so it stays visible and eleven columns are visible. -/
theorem c5_counterexample :
    ¬ (((setUserDefinedVisibleCol exStates11 10 (ColArg.arr exNames11)).states.getLast?).map
        (fun s => s.isVisible) = some false)
    ∧ countVisible (setUserDefinedVisibleCol exStates11 10 (ColArg.arr exNames11)).states
        = 11 := by
  decide

theorem setUserDefinedVisibleCol_arr (states : List StateDef) (maxVis : Nat)
    (l : List String) (h2 : 2 ≤ l.length) :
    setUserDefinedVisibleCol states maxVis (ColArg.arr l) =
      { states := (applyVisLoop l maxVis states 0).1, applied := true,
        count := (applyVisLoop l maxVis states 0).2 } := by
  unfold setUserDefinedVisibleCol
  rw [if_neg (by simp)]
  have hne : l.isEmpty = false := by
    cases l with
    | nil => simp at h2
    | cons a t => rfl
  simp only [hne, Bool.false_eq_true, if_false, if_neg (Nat.not_lt.mpr h2)]

theorem applyVisLoop_get (cl : List String) (maxVis : Nat) :
    ∀ (states : List StateDef) (c : Nat), c < maxVis → ∀ i : Nat,
      ((applyVisLoop cl maxVis states c).1)[i]? =
        (states[i]?).map (fun s =>
          if c + (states.take i).countP (matchesCol cl) < maxVis then
            { s with isVisible := matchesCol cl s }
          else s) := by
  intro states
  induction states with
  | nil =>
    intro c hc i
    simp [applyVisLoop]
  | cons s rest ih =>
    intro c hc i
    unfold applyVisLoop
    dsimp only
    by_cases hbreak : maxVis ≤ (if matchesCol cl s then c + 1 else c)
    · rw [if_pos hbreak]
      cases i with
      | zero =>
        simp only [List.getElem?_cons_zero, List.take_zero, List.countP_nil,
          Nat.add_zero, Option.map_some']
        rw [if_pos hc]
      | succ j =>
        simp only [List.getElem?_cons_succ, List.take_succ_cons, List.countP_cons]
        have hcond : ¬ (c + ((rest.take j).countP (matchesCol cl)
            + if matchesCol cl s then 1 else 0) < maxVis) := by
          by_cases hm : matchesCol cl s = true
          · simp only [if_pos hm] at hbreak ⊢
            omega
          · simp only [if_neg hm] at hbreak ⊢
            omega
        cases hj : rest[j]? with
        | none => rfl
        | some v =>
          rw [Option.map_some']
          rw [if_neg hcond]
    · rw [if_neg hbreak]
      have hc2 : (if matchesCol cl s then c + 1 else c) < maxVis := Nat.lt_of_not_le hbreak
      cases i with
      | zero =>
        simp only [List.getElem?_cons_zero, List.take_zero, List.countP_nil,
          Nat.add_zero, Option.map_some']
        rw [if_pos hc]
      | succ j =>
        simp only [List.getElem?_cons_succ, List.take_succ_cons, List.countP_cons]
        rw [ih (if matchesCol cl s then c + 1 else c) hc2 j]
        cases hj : rest[j]? with
        | none => rfl
        | some v =>
          rw [Option.map_some', Option.map_some']
          have hiff : ((if matchesCol cl s then c + 1 else c)
                + (rest.take j).countP (matchesCol cl) < maxVis) ↔
              (c + ((rest.take j).countP (matchesCol cl)
                + if matchesCol cl s then 1 else 0) < maxVis) := by
            by_cases hm : matchesCol cl s = true
            · simp only [if_pos hm]
              omega
            · simp only [if_neg hm]
              omega
          rw [if_congr hiff rfl rfl]

/-- C5 (amended): an accepted `setVisible` input is applied in the Column
Model's order, not the caller-supplied order: while fewer than `maxVisible`
matches have been seen, a matching column becomes visible and a
non-matching one becomes hidden; every column from the `maxVisible`-th match
onwards (exclusive) retains its previous visibility, because the loop breaks
there. -/
theorem c5_apply_order (states : List StateDef) (maxVis : Nat) (cl : List String)
    (h2 : 2 ≤ cl.length) (h0 : 0 < maxVis) (i : Nat) :
    ((setUserDefinedVisibleCol states maxVis (ColArg.arr cl)).states)[i]? =
      (states[i]?).map (fun s =>
        if (states.take i).countP (matchesCol cl) < maxVis then
          { s with isVisible := matchesCol cl s }
        else s) := by
  rw [setUserDefinedVisibleCol_arr states maxVis cl h2]
  have h := applyVisLoop_get cl maxVis states 0 h0 i
  simpa using h

/-- Witness for `c5_apply_order` on the eleven-column fixture at index 10:
ten matches precede the eleventh column, so it is returned untouched. -/
theorem c5_apply_order_witness :
    ((setUserDefinedVisibleCol exStates11 10 (ColArg.arr exNames11)).states)[10]? =
      (exStates11[10]?).map (fun s =>
        if (exStates11.take 10).countP (matchesCol exNames11) < 10 then
          { s with isVisible := matchesCol exNames11 s }
        else s) :=
  c5_apply_order exStates11 10 exNames11 (by decide) (by decide) 10

/-- C9, counterexample to the claim as stated: on a two-column board (both
visible, count 2 within bounds), `setVisible(["X","Y"])` passes the length
guard, matches nothing, hides both columns and is applied — the resulting
visible count is 0, which is neither "unchanged" nor within `[2, maxVisible]`. -/
theorem c9_counterexample :
    (setUserDefinedVisibleCol exStates2 10 (ColArg.arr ["X", "Y"])).applied = true
    ∧ (setUserDefinedVisibleCol exStates2 10 (ColArg.arr ["X", "Y"])).states ≠ exStates2
    ∧ countVisible (setUserDefinedVisibleCol exStates2 10 (ColArg.arr ["X", "Y"])).states
        = 0 := by
  decide

theorem setVis_cases (states : List StateDef) (maxVis : Nat) (arg : ColArg) :
    setUserDefinedVisibleCol states maxVis arg =
        { states := states, applied := false, count := 0 }
      ∨ (setUserDefinedVisibleCol states maxVis arg).applied = true := by
  unfold setUserDefinedVisibleCol
  split
  · exact Or.inl rfl
  · dsimp only
    split
    · exact Or.inl rfl
    · split
      · exact Or.inl rfl
      · exact Or.inr rfl

theorem countVisible_initialVisibility (maxVis : Nat) :
    ∀ (i : Nat) (states : List StateDef),
      countVisible (initialVisibility maxVis i states) = min states.length (maxVis - i) := by
  intro i states
  induction states generalizing i with
  | nil => simp [initialVisibility, countVisible]
  | cons s rest ih =>
    simp only [initialVisibility, countVisible, List.countP_cons, List.length_cons]
    have hrec := ih (i + 1)
    simp only [countVisible] at hrec
    rw [hrec]
    by_cases h : maxVis ≤ i
    · simp only [if_pos h, Bool.false_eq_true, if_false]
      omega
    · simp only [if_neg h, if_true]
      omega

/-- C9 (amended): the initialization-time assignment makes exactly
`min(columnCount, maxVisible)` columns visible — within `[2, maxVisible]`
whenever the board has at least two columns and `maxVisible ≥ 2` — and a
`setVisible` call rejected by the early guards leaves every visibility flag
unchanged; an *accepted* call, however, is not bounded (see the
counterexample), so only the rejected-input half of the preservation claim
holds. -/
theorem c9_bounds (states : List StateDef) (maxVis : Nat) :
    countVisible (initialVisibility maxVis 0 states) = min states.length maxVis
    ∧ (2 ≤ states.length → 2 ≤ maxVis →
        2 ≤ countVisible (initialVisibility maxVis 0 states)
        ∧ countVisible (initialVisibility maxVis 0 states) ≤ maxVis)
    ∧ (∀ arg : ColArg, (setUserDefinedVisibleCol states maxVis arg).applied = false →
        (setUserDefinedVisibleCol states maxVis arg).states = states) := by
  have hcount := countVisible_initialVisibility maxVis 0 states
  rw [Nat.sub_zero] at hcount
  refine ⟨hcount, fun h2 hm => ?_, fun arg happ => ?_⟩
  · rw [hcount]
    omega
  · rcases setVis_cases states maxVis arg with h | h
    · rw [h]
    · rw [h] at happ
      exact absurd happ (by simp)

/-- Witness for `c9_bounds` on the three-column fixture with the default
`maxColumnVisible = 10`, the implications discharged at `["A"]` (a rejected
single-entry input). -/
theorem c9_bounds_witness :
    countVisible (initialVisibility 10 0 exStates3) = min exStates3.length 10
    ∧ 2 ≤ countVisible (initialVisibility 10 0 exStates3)
    ∧ countVisible (initialVisibility 10 0 exStates3) ≤ 10
    ∧ (setUserDefinedVisibleCol exStates3 10 (ColArg.arr ["A"])).states = exStates3 :=
  ⟨(c9_bounds exStates3 10).1,
   ((c9_bounds exStates3 10).2.1 (by decide) (by decide)).1,
   ((c9_bounds exStates3 10).2.1 (by decide) (by decide)).2,
   (c9_bounds exStates3 10).2.2 (ColArg.arr ["A"]) (by decide)⟩

/-!
## Claim C6 — the synthetic blank state
-/

/-- C6, counterexample to the claim as stated: for an optional choice field
with the default optional label, the prepended blank state's internal `name`
is `"(none)"`, not the empty string (only the `statesMap` key is `""`). -/
theorem c6_counterexample :
    ((getBoardStatesChoice "FALSE" none "(none)" none ["Not Started", "Done"]).1.head?).map
        (fun s => s.name) = some "(none)"
    ∧ ¬ (((getBoardStatesChoice "FALSE" none "(none)" none
        ["Not Started", "Done"]).1.head?).map (fun s => s.name) = some "") := by
  decide

theorem lookup_map_replace (m : List (String × StateDef)) (k : String) (v : StateDef)
    (x : String) (hx : ¬ (x = k)) :
    List.lookup x (m.map fun p => if p.1 = k then (k, v) else p) = List.lookup x m := by
  induction m with
  | nil => rfl
  | cons a rest ih =>
    rw [List.map_cons]
    by_cases ha : a.1 = k
    · rw [if_pos ha, List.lookup_cons, List.lookup_cons]
      have hbx : (x == k) = false := by
        rw [beq_eq_false_iff_ne]
        exact hx
      have hbxa : (x == a.1) = false := by
        rw [beq_eq_false_iff_ne]
        rw [ha]
        exact hx
      rw [hbx, hbxa]
      exact ih
    · rw [if_neg ha, List.lookup_cons, List.lookup_cons]
      cases hxa : x == a.1 with
      | true => rfl
      | false => exact ih

theorem lookup_append_single (m : List (String × StateDef)) (k : String) (v : StateDef)
    (x : String) (hx : ¬ (x = k)) :
    List.lookup x (m ++ [(k, v)]) = List.lookup x m := by
  induction m with
  | nil =>
    rw [List.nil_append, List.lookup_cons]
    have hbx : (x == k) = false := by
      rw [beq_eq_false_iff_ne]
      exact hx
    rw [hbx]
  | cons a rest ih =>
    rw [List.cons_append, List.lookup_cons, List.lookup_cons]
    cases hxa : x == a.1 with
    | true => rfl
    | false => exact ih

theorem lookup_mapSet_ne (m : List (String × StateDef)) (k : String) (v : StateDef)
    (x : String) (hx : ¬ (x = k)) :
    List.lookup x (mapSet m k v) = List.lookup x m := by
  unfold mapSet
  split
  · exact lookup_map_replace m k v x hx
  · exact lookup_append_single m k v x hx

theorem choiceValueLoop_states_prefix (filter : Option (List String)) (maxCols : Nat) :
    ∀ (vals : List String) (i : Nat) (states : List StateDef)
      (map : List (String × StateDef)),
      ∃ tail, (choiceValueLoop filter maxCols vals i states map).1 = states ++ tail := by
  intro vals
  induction vals with
  | nil => exact fun i states map => ⟨[], by simp [choiceValueLoop]⟩
  | cons v rest ih =>
    intro i states map
    unfold choiceValueLoop
    split
    · exact ih (i + 1) states map
    · split
      · exact ⟨[], by simp⟩
      · obtain ⟨tail, htail⟩ := ih (i + 1)
          (states ++ [{ type := "choice", title := v, name := v }])
          (mapSet map v { type := "choice", title := v, name := v })
        refine ⟨{ type := "choice", title := v, name := v } :: tail, ?_⟩
        rw [htail, List.append_assoc]
        rfl

theorem choiceValueLoop_lookup_blank (filter : Option (List String)) (maxCols : Nat) :
    ∀ (vals : List String) (i : Nat) (states : List StateDef)
      (map : List (String × StateDef)), "" ∉ vals →
      List.lookup "" (choiceValueLoop filter maxCols vals i states map).2 =
        List.lookup "" map := by
  intro vals
  induction vals with
  | nil => exact fun i states map _ => rfl
  | cons v rest ih =>
    intro i states map hnb
    have hnbr : "" ∉ rest := fun h => hnb (List.mem_cons_of_mem v h)
    have hnv : ¬ (("" : String) = v) := fun h => hnb (h ▸ List.mem_cons_self v rest)
    unfold choiceValueLoop
    split
    · exact ih (i + 1) states map hnbr
    · split
      · rfl
      · rw [ih (i + 1) _ _ hnbr]
        exact lookup_mapSet_ne map v _ "" hnv

theorem lookupRow_name_ne_blank (row : LookupRow) :
    ¬ (("" : String) = row.ID ++ ";#" ++ row.showValue) := by
  intro h
  have hlen := congrArg String.length h
  rw [String.length_append, String.length_append] at hlen
  have h2 : (";#" : String).length = 2 := rfl
  have h0 : ("" : String).length = 0 := rfl
  rw [h2, h0] at hlen
  omega

theorem lookupRowLoop_states_prefix (maxCols : Nat) :
    ∀ (rows : List LookupRow) (i : Nat) (states : List StateDef)
      (map : List (String × StateDef)),
      ∃ tail, (lookupRowLoop maxCols rows i states map).1 = states ++ tail := by
  intro rows
  induction rows with
  | nil => exact fun i states map => ⟨[], by simp [lookupRowLoop]⟩
  | cons row rest ih =>
    intro i states map
    unfold lookupRowLoop
    split
    · exact ⟨[], by simp⟩
    · obtain ⟨tail, htail⟩ := ih (i + 1)
        (states ++
          [{ type := "lookup", title := row.showValue,
             name := row.ID ++ ";#" ++ row.showValue }])
        (mapSet map (row.ID ++ ";#" ++ row.showValue)
          { type := "lookup", title := row.showValue,
            name := row.ID ++ ";#" ++ row.showValue })
      refine ⟨{ type := "lookup", title := row.showValue,
                name := row.ID ++ ";#" ++ row.showValue } :: tail, ?_⟩
      rw [htail, List.append_assoc]
      rfl

theorem lookupRowLoop_lookup_blank (maxCols : Nat) :
    ∀ (rows : List LookupRow) (i : Nat) (states : List StateDef)
      (map : List (String × StateDef)),
      List.lookup "" (lookupRowLoop maxCols rows i states map).2 =
        List.lookup "" map := by
  intro rows
  induction rows with
  | nil => exact fun i states map => rfl
  | cons row rest ih =>
    intro i states map
    unfold lookupRowLoop
    split
    · rfl
    · rw [ih (i + 1) _ _]
      exact lookup_mapSet_ne map _ _ "" (lookupRow_name_ne_blank row)

/-- C6 (amended): whenever the field is not required (required-ness possibly
overridden by `allowFieldBlanks`), a single synthetic blank state is
prepended as the first column and registered in `statesMap` under the key
`""`; its internal `name` is the empty string only for lookup (reference)
fields — for choice (enumerated) fields both its `title` and `name` equal
`opt.optionalLabel`. -/
theorem c6_blank_state (fRequired : String) (allowFieldBlanks : Option Bool)
    (optionalLabel : String) (fieldFilter : Option String) (values : List String)
    (rows : List LookupRow)
    (hreq : computeIsStateRequired fRequired allowFieldBlanks = false)
    (hnb : "" ∉ values) :
    ((getBoardStatesChoice fRequired allowFieldBlanks optionalLabel fieldFilter
        values).1.head?
      = some { type := "choice", title := optionalLabel, name := optionalLabel })
    ∧ (List.lookup ""
        (getBoardStatesChoice fRequired allowFieldBlanks optionalLabel fieldFilter
          values).2
      = some { type := "choice", title := optionalLabel, name := optionalLabel })
    ∧ ((getBoardStatesLookup fRequired allowFieldBlanks optionalLabel rows).1.head?
      = some { type := "lookup", title := optionalLabel, name := "" })
    ∧ (List.lookup ""
        (getBoardStatesLookup fRequired allowFieldBlanks optionalLabel rows).2
      = some { type := "lookup", title := optionalLabel, name := "" }) := by
  unfold getBoardStatesChoice getBoardStatesLookup
  rw [hreq]
  simp only [Bool.not_false, if_true]
  refine ⟨?_, ?_, ?_, ?_⟩
  · obtain ⟨tail, htail⟩ := choiceValueLoop_states_prefix
      (match fieldFilter with
        | none => none
        | some s => if s = "" then none else some (s.splitOn ","))
      Board.maxColumns values 0
      [{ type := "choice", title := optionalLabel, name := optionalLabel }]
      (mapSet [] "" { type := "choice", title := optionalLabel, name := optionalLabel })
    rw [htail]
    rfl
  · rw [choiceValueLoop_lookup_blank _ Board.maxColumns values 0 _ _ hnb]
    rfl
  · obtain ⟨tail, htail⟩ := lookupRowLoop_states_prefix Board.maxColumns rows 0
      [{ type := "lookup", title := optionalLabel, name := "" }]
      (mapSet [] "" { type := "lookup", title := optionalLabel, name := "" })
    rw [htail]
    rfl
  · rw [lookupRowLoop_lookup_blank Board.maxColumns rows 0 _ _]
    rfl

/-- Witness for `c6_blank_state`: an optional (`Required = "FALSE"`, no
override) field, choice values without a blank, one lookup row. -/
theorem c6_blank_state_witness :
    ((getBoardStatesChoice "FALSE" none "(none)" none ["Not Started", "Done"]).1.head?
      = some { type := "choice", title := "(none)", name := "(none)" })
    ∧ (List.lookup ""
        (getBoardStatesChoice "FALSE" none "(none)" none ["Not Started", "Done"]).2
      = some { type := "choice", title := "(none)", name := "(none)" })
    ∧ ((getBoardStatesLookup "FALSE" none "(none)" [{ ID := "1", showValue := "Proj1" }]).1.head?
      = some { type := "lookup", title := "(none)", name := "" })
    ∧ (List.lookup ""
        (getBoardStatesLookup "FALSE" none "(none)" [{ ID := "1", showValue := "Proj1" }]).2
      = some { type := "lookup", title := "(none)", name := "" }) :=
  c6_blank_state "FALSE" none "(none)" none ["Not Started", "Done"]
    [{ ID := "1", showValue := "Proj1" }] (by decide) (by decide)

/-!
## Claims C7 and C8 — the move synchronizer
-/

/-- C7: if the pre-commit hook returns boolean `true`, or the accumulated
updates are empty after it ran, the handler exits before `updateListItems`:
no remote call is issued and no action at all is performed for that move —
in particular no `spwidget:boardchange` is triggered and nothing repositions
the dropped item (the model's action list is empty; the source likewise
contains no code path that undoes the drop). -/
theorem c7_precommit_cancel {α : Type} (field currentState : String) (itemObj : Rec)
    (hook : List (String × String) → List (String × String) × Bool)
    (resp : UpdateResponse α)
    (hcancel : (hook [(field, currentState)]).2 = true
      ∨ (hook [(field, currentState)]).1 = []) :
    (sortReceiveHandler field currentState itemObj (some hook) resp).remoteCall = none
    ∧ (sortReceiveHandler field currentState itemObj (some hook) resp).actions = [] := by
  unfold sortReceiveHandler
  dsimp only
  rcases hcancel with h | h
  · rw [if_pos h]
    exact ⟨rfl, rfl⟩
  · by_cases h2 : (hook [(field, currentState)]).2 = true
    · rw [if_pos h2]
      exact ⟨rfl, rfl⟩
    · rw [if_neg h2,
        if_pos (show (hook [(field, currentState)]).1.isEmpty = true by rw [h]; rfl)]
      exact ⟨rfl, rfl⟩

/-- Witness for `c7_precommit_cancel`: a hook that returns `true` on the
single accumulated update. -/
theorem c7_precommit_cancel_witness :
    (sortReceiveHandler "Status" "In Progress" { ID := "2", state := "Done" }
        (some fun u => (u, true))
        ({ status := "success", xData := "x", hasError := false, errorMsg := "",
           rows := [] } : UpdateResponse String)).remoteCall = none
    ∧ (sortReceiveHandler "Status" "In Progress" { ID := "2", state := "Done" }
        (some fun u => (u, true))
        ({ status := "success", xData := "x", hasError := false, errorMsg := "",
           rows := [] } : UpdateResponse String)).actions = [] :=
  c7_precommit_cancel "Status" "In Progress" { ID := "2", state := "Done" }
    (fun u => (u, true))
    { status := "success", xData := "x", hasError := false, errorMsg := "", rows := [] }
    (Or.inl rfl)

/-- C8: for a committed move (hook did not cancel, updates non-empty), the
remote call carries the accumulated value pairs; on a transport error
(`status === "error"`) the promise is rejected with
`('Communications Error!', xData, status)` and no change event fires; on a
server-reported validation error it is rejected with
`(getMsgError(resp), xData, status)` and no change event fires; on success
`spwidget:boardchange` is re-triggered *before* the promise resolves with
`(row[0], evData.itemObj, xData)`. -/
theorem c8_commit_outcome {α : Type} (field currentState : String) (itemObj : Rec)
    (hook : List (String × String) → List (String × String) × Bool)
    (resp : UpdateResponse α) (u : List (String × String))
    (hhook : hook [(field, currentState)] = (u, false)) (hne : u ≠ []) :
    (sortReceiveHandler field currentState itemObj (some hook) resp).remoteCall
      = some (itemObj.ID, u)
    ∧ (resp.status = "error" →
        (sortReceiveHandler field currentState itemObj (some hook) resp).actions
          = [SyncAction.reject "Communications Error!" resp.xData resp.status]
        ∧ SyncAction.emitChange ∉
            (sortReceiveHandler field currentState itemObj (some hook) resp).actions)
    ∧ (resp.status ≠ "error" → resp.hasError = true →
        (sortReceiveHandler field currentState itemObj (some hook) resp).actions
          = [SyncAction.reject resp.errorMsg resp.xData resp.status]
        ∧ SyncAction.emitChange ∉
            (sortReceiveHandler field currentState itemObj (some hook) resp).actions)
    ∧ (resp.status ≠ "error" → resp.hasError = false →
        (sortReceiveHandler field currentState itemObj (some hook) resp).actions
          = [SyncAction.emitChange,
             SyncAction.resolve resp.rows.head? itemObj resp.xData]) := by
  have hres : sortReceiveHandler field currentState itemObj (some hook) resp =
      { remoteCall := some (itemObj.ID, u), actions := completefunc itemObj resp } := by
    unfold sortReceiveHandler
    dsimp only
    rw [hhook]
    dsimp only
    rw [if_neg (by simp)]
    rw [if_neg (show ¬ (u.isEmpty = true) from
      fun hemp => hne (List.isEmpty_iff.mp hemp))]
  rw [hres]
  refine ⟨rfl, fun herr => ?_, fun hok hval => ?_, fun hok hval => ?_⟩
  · unfold completefunc
    rw [if_pos herr]
    exact ⟨rfl, by simp⟩
  · unfold completefunc
    rw [if_neg hok, if_pos hval]
    exact ⟨rfl, by simp⟩
  · unfold completefunc
    rw [if_neg hok, if_neg (by rw [hval]; exact Bool.false_ne_true)]

/-- Witness for `c8_commit_outcome`: an identity hook and a transport
failure; the remote call carries the single state update and the promise is
rejected with the communications-error triple, without a change event. -/
theorem c8_commit_outcome_witness :
    (sortReceiveHandler "Status" "In Progress" { ID := "2", state := "Done" }
        (some fun u => (u, false))
        ({ status := "error", xData := "x", hasError := false, errorMsg := "",
           rows := [] } : UpdateResponse String)).remoteCall
      = some ("2", [("Status", "In Progress")])
    ∧ (sortReceiveHandler "Status" "In Progress" { ID := "2", state := "Done" }
        (some fun u => (u, false))
        ({ status := "error", xData := "x", hasError := false, errorMsg := "",
           rows := [] } : UpdateResponse String)).actions
      = [SyncAction.reject "Communications Error!" "x" "error"]
    ∧ SyncAction.emitChange ∉
        (sortReceiveHandler "Status" "In Progress" { ID := "2", state := "Done" }
          (some fun u => (u, false))
          ({ status := "error", xData := "x", hasError := false, errorMsg := "",
             rows := [] } : UpdateResponse String)).actions :=
  ⟨(c8_commit_outcome "Status" "In Progress" { ID := "2", state := "Done" }
      (fun u => (u, false))
      { status := "error", xData := "x", hasError := false, errorMsg := "", rows := [] }
      [("Status", "In Progress")] rfl (by decide)).1,
   ((c8_commit_outcome "Status" "In Progress" { ID := "2", state := "Done" }
      (fun u => (u, false))
      { status := "error", xData := "x", hasError := false, errorMsg := "", rows := [] }
      [("Status", "In Progress")] rfl (by decide)).2.1 rfl).1,
   ((c8_commit_outcome "Status" "In Progress" { ID := "2", state := "Done" }
      (fun u => (u, false))
      { status := "error", xData := "x", hasError := false, errorMsg := "", rows := [] }
      [("Status", "In Progress")] rfl (by decide)).2.1 rfl).2⟩

end SPWidgets
